import Mathlib

/-!
Shallow embedding of `src/vizualization.py` (functions `scatterplot` and
`choropleth`) together with proofs of its specified properties.

The module draws two fixed-size grids of panels with matplotlib/geopandas.
We model a matplotlib axes object as a `Panel` record, a figure as the
row-major list of its panels, and each plotting call as a record update.
Fallible pandas accesses (`df.loc[...]`, `df.iloc[k]`, `columns[k]`) are
modelled with `Except`, distinguishing a key lookup failure (`KeyError`)
from a positional out-of-range failure (`IndexError`).
-/

/-- Errors the underlying library can raise: a key lookup failure
(pandas `KeyError`) or a positional out-of-range failure (`IndexError`). -/
inductive PlotError where
  | keyError (label : String)
  | indexError (k : Nat)
  deriving DecidableEq, Repr

/-- A pandas DataFrame as used by `scatterplot`: rows keyed by a string
index label, each row holding the numeric values of its columns
(geographic units). Row order is significant (`iloc` is positional). -/
structure DataFrame where
  rows : List (String × List Int)
  deriving DecidableEq, Repr

/-- The index of the frame: the list of row labels (`df.index`). -/
def DataFrame.index (df : DataFrame) : List String :=
  df.rows.map Prod.fst

/-- Label based row lookup, `df.loc[label]`: the first row whose label
matches, `none` when the label is absent (pandas raises `KeyError`). -/
def DataFrame.loc (df : DataFrame) (label : String) : Option (List Int) :=
  (df.rows.find? (fun r => r.1 == label)).map Prod.snd

/-- Positional row lookup, `df.iloc[k]`: `none` when `k` is out of range
(pandas raises `IndexError`). -/
def DataFrame.iloc (df : DataFrame) (k : Nat) : Option (List Int) :=
  (df.rows[k]?).map Prod.snd

/-- A GeoDataFrame as used by `choropleth`: named columns of numeric
values (the trailing three are non-metric in the intended layout) and a
coordinate reference system given by its EPSG code. -/
structure GeoDataFrame where
  cols : List (String × List Int)
  crs : Nat
  deriving DecidableEq, Repr

/-- The column labels of the frame (`gdf.columns`). -/
def GeoDataFrame.columns (gdf : GeoDataFrame) : List String :=
  gdf.cols.map Prod.fst

/-- Reprojection `gdf.to_crs(epsg=e)`: returns a new frame in the target
coordinate reference system; the receiver is not modified. -/
def GeoDataFrame.to_crs (gdf : GeoDataFrame) (e : Nat) : GeoDataFrame :=
  { gdf with crs := e }

/-- The arguments of one `GeoDataFrame.plot` call recorded on a panel:
the (reprojected) frame drawn, the column plotted, and the legend,
classification scheme and color map options. -/
structure MapPlot where
  frame : GeoDataFrame
  column : String
  legend : Bool
  scheme : String
  cmap : String
  deriving DecidableEq, Repr

/-- One axes object of the figure. Fields record the effect of the
matplotlib calls the source makes on it: `scatter` data, the current
title/labels (a later `set_title` overwrites an earlier one), log-scale
flags, whether the axis is shown, the recorded map plot, and whether the
cell was removed with `fig.delaxes`. -/
structure Panel where
  scatterData : Option (List Int × List Int) := none
  mapPlot : Option MapPlot := none
  title : Option String := none
  xlabel : Option String := none
  ylabel : Option String := none
  xlog : Bool := false
  ylog : Bool := false
  axisOn : Bool := true
  deleted : Bool := false
  deriving DecidableEq, Repr

instance : Inhabited Panel := ⟨{}⟩

/-- A figure: its panels in row-major order (cell `(i, j)` of a grid with
`ncols` columns is entry `i * ncols + j`). -/
abbrev Figure : Type := List Panel

/-- Python `str.capitalize()`: first character uppercased, every other
character lowercased. -/
def pyCapitalize (s : String) : String :=
  match s.data with
  | [] => ⟨[]⟩
  | c :: cs => ⟨c.toUpper :: cs.map Char.toLower⟩

/-- Python `str.replace(a, b)` for a single-character pattern and
replacement: every occurrence of `a` becomes `b`. -/
def pyReplace1 (s : String) (a b : Char) : String :=
  ⟨s.data.map fun c => if c = a then b else c⟩

/-- The title the source computes for a metric name `s`:
`s.capitalize().replace("_", " ")`. -/
def pyTitle (s : String) : String :=
  pyReplace1 (pyCapitalize s) '_' ' '

/-- Remove cell `idx` from the figure (`fig.delaxes(ax[i, j])`). -/
def delaxes (fig : Figure) (idx : Nat) : Figure :=
  fig.set idx { fig.getD idx default with deleted := true }

/-- The body of the scatterplot loop for grid cell holding counter `k`,
acting on the cell's panel `p`: in source order it scatters
`df.loc["total_population"]` against `df.iloc[k]`, sets the title to
`df.index[k]`, the x-label, then overwrites the title with
`df.index[k].capitalize().replace("_", " ")`, sets the y-label and the
final x-label, and switches either axis to log scale when asked. -/
def scatterBody (df : DataFrame) (logx logy : Bool) (k : Nat) (p : Panel) :
    Except PlotError Panel :=
  match df.loc "total_population" with
  | none => .error (.keyError "total_population")
  | some x =>
    match df.iloc k with
    | none => .error (.indexError k)
    | some y =>
      match df.index[k]? with
      | none => .error (.indexError k)
      | some name =>
        let p := { p with scatterData := some (x, y), title := some name,
                          xlabel := some "total_population" }
        let p := { p with title := some (pyTitle name),
                          ylabel := some "Number of amenity in a borough",
                          xlabel := some "Total population per borough" }
        let p := if logx then { p with xlog := true } else p
        let p := if logy then { p with ylog := true } else p
        .ok p

/-- Inner `for j in range(ncols)` loop over the remaining column indices
`js` of grid row `i`: runs the body on cell `(i, j)`, increments `k`, and
breaks out of this row when `k` reaches 10. -/
def gridInner (body : Nat → Panel → Except PlotError Panel) (ncols : Nat)
    (i : Nat) (js : List Nat) (k : Nat) (fig : Figure) :
    Except PlotError (Figure × Nat) :=
  match js with
  | [] => .ok (fig, k)
  | j :: rest =>
    match body k (fig.getD (i * ncols + j) default) with
    | .error e => .error e
    | .ok p =>
      let fig := fig.set (i * ncols + j) p
      let k := k + 1
      if k == 10 then .ok (fig, k)
      else gridInner body ncols i rest k fig

/-- Outer `for i in range(nrows)` loop over the remaining row indices
`is`; a `break` of the inner loop only ends that row, the outer loop
continues with `k` unchanged. -/
def gridOuter (body : Nat → Panel → Except PlotError Panel) (ncols : Nat)
    (js : List Nat) (is : List Nat) (k : Nat) (fig : Figure) :
    Except PlotError (Figure × Nat) :=
  match is with
  | [] => .ok (fig, k)
  | i :: rest =>
    match gridInner body ncols i js k fig with
    | .error e => .error e
    | .ok (fig, k) => gridOuter body ncols js rest k fig

/-- The `scatterplot(df, figsize, logx, logy)` function: a 3 by 4 grid of
scatter panels filled in row-major order by `gridInner`/`gridOuter` with
`scatterBody`, after which cells `(2, 2)` and `(2, 3)` are deleted. -/
def scatterplot (df : DataFrame) (logx logy : Bool) :
    Except PlotError Figure :=
  match gridOuter (scatterBody df logx logy) 4 [0, 1, 2, 3] [0, 1, 2] 0
      (List.replicate 12 default) with
  | .error e => .error e
  | .ok (fig, _) => .ok (delaxes (delaxes fig (2 * 4 + 2)) (2 * 4 + 3))

/-- The body of the choropleth loop for the cell holding counter `k`:
plots `gdf.to_crs(epsg=3857)` for column `columns[k]` with a legend, the
Fisher-Jenks classification scheme and the chosen color map, sets the
title to `columns[k].capitalize().replace("_", " ")` and hides the axis. -/
def choroBody (gdf : GeoDataFrame) (cmap : String) (columns : List String)
    (k : Nat) (p : Panel) : Except PlotError Panel :=
  match columns[k]? with
  | none => .error (.indexError k)
  | some c =>
    let p := { p with mapPlot := some { frame := gdf.to_crs 3857, column := c,
                                        legend := true, scheme := "fisher_jenks",
                                        cmap := cmap } }
    let p := { p with title := some (pyTitle c) }
    let p := { p with axisOn := false }
    .ok p

/-- The local `columns = gdf.columns[:-3]` of the source: all column
labels except the trailing three. -/
def choroCols (gdf : GeoDataFrame) : List String :=
  gdf.columns.take (gdf.columns.length - 3)

/-- The `choropleth(gdf, figsize, cmap)` function: a 4 by 3 grid of map
panels, one per entry of `gdf.columns[:-3]`, filled in row-major order,
after which cells `(3, 1)` and `(3, 2)` are deleted. -/
def choropleth (gdf : GeoDataFrame) (cmap : String) :
    Except PlotError Figure :=
  match gridOuter (choroBody gdf cmap (choroCols gdf)) 3 [0, 1, 2] [0, 1, 2, 3] 0
      (List.replicate 12 default) with
  | .error e => .error e
  | .ok (fig, _) => .ok (delaxes (delaxes fig (3 * 3 + 1)) (3 * 3 + 2))

/-- The figure `scatterplot` produces on a frame with at least 10 rows
when the lookup of the population row yields `x`: ten scatter panels, one
per row position `k < 10`, then two deleted cells. -/
def scatterExpected (df : DataFrame) (logx logy : Bool) (x : List Int) :
    Figure :=
  (List.range 12).map fun k =>
    if k < 10 then
      match df.rows[k]? with
      | some r => { scatterData := some (x, r.2), title := some (pyTitle r.1),
                    xlabel := some "Total population per borough",
                    ylabel := some "Number of amenity in a borough",
                    xlog := logx, ylog := logy }
      | none => default
    else { (default : Panel) with deleted := true }

/-- The figure `choropleth` produces on a frame whose metric column list
has at least 10 entries: ten map panels, one per metric column position
`k < 10`, then two deleted cells. -/
def choroExpected (gdf : GeoDataFrame) (cmap : String) : Figure :=
  (List.range 12).map fun k =>
    if k < 10 then
      match (choroCols gdf)[k]? with
      | some c =>
        { mapPlot := some { frame := gdf.to_crs 3857, column := c,
                            legend := true, scheme := "fisher_jenks",
                            cmap := cmap },
          title := some (pyTitle c), axisOn := false }
      | none => default
    else { (default : Panel) with deleted := true }

/-- Number of panels of the figure on which a scatter was drawn. -/
def countScatterPanels (fig : Figure) : Nat :=
  (fig.filter fun p => p.scatterData.isSome).length

/-- Number of panels of the figure on which a map was drawn. -/
def countMapPanels (fig : Figure) : Nat :=
  (fig.filter fun p => p.mapPlot.isSome).length

/-- Number of panels removed from the figure with `fig.delaxes`. -/
def countDeletedPanels (fig : Figure) : Nat :=
  (fig.filter fun p => p.deleted).length

/-- Modelled from the spec sentence for the panel title: the metric name
with underscores replaced by spaces and the first letter capitalized, and
nothing else about the name changed. -/
def specTitle (s : String) : String :=
  match (pyReplace1 s '_' ' ').data with
  | [] => ⟨[]⟩
  | c :: cs => ⟨c.toUpper :: cs⟩

/-- A panel with its two log-scale flags reset; equality of panels up to
`clearScales` is equality of everything except the axis scales. -/
def Panel.clearScales (p : Panel) : Panel :=
  { p with xlog := false, ylog := false }

/-- State threaded variant of the scatterplot loop body: the frame is
passed as explicit state and handed back, so that what the call leaves of
its input is part of the result. `df.loc`, `df.iloc` and `df.index` are
reads; none of them replaces the frame, mirroring pandas. -/
def scatterBodySt (logx logy : Bool) (k : Nat) (p : Panel) (df : DataFrame) :
    Except PlotError (Panel × DataFrame) :=
  match df.loc "total_population" with
  | none => .error (.keyError "total_population")
  | some x =>
    match df.iloc k with
    | none => .error (.indexError k)
    | some y =>
      match df.index[k]? with
      | none => .error (.indexError k)
      | some name =>
        let p := { p with scatterData := some (x, y), title := some name,
                          xlabel := some "total_population" }
        let p := { p with title := some (pyTitle name),
                          ylabel := some "Number of amenity in a borough",
                          xlabel := some "Total population per borough" }
        let p := if logx then { p with xlog := true } else p
        let p := if logy then { p with ylog := true } else p
        .ok (p, df)

/-- State threaded variant of the choropleth loop body. The reprojection
`gdf.to_crs(epsg=3857)` builds a new frame that is plotted; the frame
held by the caller is handed back as the state. -/
def choroBodySt (cmap : String) (columns : List String) (k : Nat)
    (p : Panel) (gdf : GeoDataFrame) :
    Except PlotError (Panel × GeoDataFrame) :=
  match columns[k]? with
  | none => .error (.indexError k)
  | some c =>
    let reprojected := gdf.to_crs 3857
    let p := { p with mapPlot := some { frame := reprojected, column := c,
                                        legend := true, scheme := "fisher_jenks",
                                        cmap := cmap } }
    let p := { p with title := some (pyTitle c) }
    let p := { p with axisOn := false }
    .ok (p, gdf)

/-- State threaded inner loop: like `gridInner`, but the table state is
carried through every body call and returned also when a body fails. -/
def gridInnerSt {S : Type} (body : Nat → Panel → S → Except PlotError (Panel × S))
    (ncols : Nat) (i : Nat) (js : List Nat) (k : Nat) (fig : Figure) (s : S) :
    Except PlotError (Figure × Nat) × S :=
  match js with
  | [] => (.ok (fig, k), s)
  | j :: rest =>
    match body k (fig.getD (i * ncols + j) default) s with
    | .error e => (.error e, s)
    | .ok (p, s) =>
      let fig := fig.set (i * ncols + j) p
      let k := k + 1
      if k == 10 then (.ok (fig, k), s)
      else gridInnerSt body ncols i rest k fig s

/-- State threaded outer loop over the remaining row indices `is`. -/
def gridOuterSt {S : Type} (body : Nat → Panel → S → Except PlotError (Panel × S))
    (ncols : Nat) (js : List Nat) (is : List Nat) (k : Nat) (fig : Figure)
    (s : S) : Except PlotError (Figure × Nat) × S :=
  match is with
  | [] => (.ok (fig, k), s)
  | i :: rest =>
    match gridInnerSt body ncols i js k fig s with
    | (.error e, s) => (.error e, s)
    | (.ok (fig, k), s) => gridOuterSt body ncols js rest k fig s

/-- State threaded `scatterplot`: same computation, returning next to the
outcome the frame the call leaves behind. -/
def scatterplotSt (df : DataFrame) (logx logy : Bool) :
    Except PlotError Figure × DataFrame :=
  match gridOuterSt (scatterBodySt logx logy) 4 [0, 1, 2, 3] [0, 1, 2] 0
      (List.replicate 12 default) df with
  | (.error e, df) => (.error e, df)
  | (.ok (fig, _), df) =>
    (.ok (delaxes (delaxes fig (2 * 4 + 2)) (2 * 4 + 3)), df)

/-- State threaded `choropleth`: same computation, returning next to the
outcome the frame the call leaves behind. -/
def choroplethSt (gdf : GeoDataFrame) (cmap : String) :
    Except PlotError Figure × GeoDataFrame :=
  match gridOuterSt (choroBodySt cmap (choroCols gdf)) 3 [0, 1, 2] [0, 1, 2, 3] 0
      (List.replicate 12 default) gdf with
  | (.error e, gdf) => (.error e, gdf)
  | (.ok (fig, _), gdf) =>
    (.ok (delaxes (delaxes fig (3 * 3 + 1)) (3 * 3 + 2)), gdf)

/-- Example frame: 11 rows, the population row first, a metric with an
inner uppercase letter at position 1. -/
def exDf11 : DataFrame :=
  ⟨[("total_population", [5, 7]),
    ("bike_Parking", [3, 3]), ("cafe", [3, 4]), ("school", [0, 1]),
    ("library", [2, 2]), ("park", [9, 9]), ("bank", [4, 4]),
    ("cinema", [1, 1]), ("pharmacy", [6, 6]), ("bus_stop", [8, 8]),
    ("restaurant", [2, 5])]⟩

/-- Example frame: exactly 10 rows, the population row among them. -/
def exDf10 : DataFrame :=
  ⟨[("bar", [1, 2]), ("cafe", [3, 4]), ("school", [0, 1]),
    ("library", [2, 2]), ("park", [9, 9]), ("bank", [4, 4]),
    ("cinema", [1, 1]), ("pharmacy", [6, 6]), ("bus_stop", [8, 8]),
    ("total_population", [5, 7])]⟩

/-- Example frame: 5 rows, the population row among them. -/
def exDf5 : DataFrame :=
  ⟨[("bar", [1, 2]), ("cafe", [3, 4]), ("total_population", [5, 7]),
    ("school", [0, 1]), ("library", [2, 2])]⟩

/-- Example frame: 12 rows, none of them labelled total_population. -/
def exDfNoPop : DataFrame :=
  ⟨[("bar", [1, 2]), ("cafe", [3, 4]), ("school", [0, 1]),
    ("library", [2, 2]), ("park", [9, 9]), ("bank", [4, 4]),
    ("cinema", [1, 1]), ("pharmacy", [6, 6]), ("bus_stop", [8, 8]),
    ("restaurant", [2, 5]), ("hotel", [0, 2]), ("museum", [1, 0])]⟩

/-- Example geospatial frame: 13 columns, 10 metrics then 3 trailing
non-metric columns. -/
def exGdf13 : GeoDataFrame :=
  ⟨[("bar", [1, 2]), ("cafe", [3, 4]), ("school", [0, 1]),
    ("library", [2, 2]), ("park", [9, 9]), ("bank", [4, 4]),
    ("cinema", [1, 1]), ("pharmacy", [6, 6]), ("bus_stop", [8, 8]),
    ("restaurant", [2, 5]), ("geometry", [0, 0]), ("area_id", [1, 2]),
    ("name", [0, 1])], 4326⟩

/-- Example geospatial frame with only 5 columns. -/
def exGdf5 : GeoDataFrame :=
  ⟨[("bar", [1, 2]), ("cafe", [3, 4]), ("geometry", [0, 0]),
    ("area_id", [1, 2]), ("name", [0, 1])], 4326⟩

theorem default_panel_eq : (default : Panel) = {} := rfl

/-- A list of length at least 10 splits into ten leading elements and a
tail. -/
theorem exists_cons10 {α : Type} (l : List α) (h : 10 ≤ l.length) :
    ∃ a0 a1 a2 a3 a4 a5 a6 a7 a8 a9 t,
      l = a0 :: a1 :: a2 :: a3 :: a4 :: a5 :: a6 :: a7 :: a8 :: a9 :: t := by
  match l, h with
  | a0 :: a1 :: a2 :: a3 :: a4 :: a5 :: a6 :: a7 :: a8 :: a9 :: t, _ =>
    exact ⟨a0, a1, a2, a3, a4, a5, a6, a7, a8, a9, t, rfl⟩

/-- Master run lemma for `scatterplot`: when the population label resolves
and at least ten rows exist, the call succeeds and produces exactly the
figure `scatterExpected`. -/
theorem scatterplot_run (df : DataFrame) (logx logy : Bool) (x : List Int)
    (hx : df.loc "total_population" = some x) (h10 : 10 ≤ df.rows.length) :
    scatterplot df logx logy = .ok (scatterExpected df logx logy x) := by
  obtain ⟨rows⟩ := df
  obtain ⟨a0, a1, a2, a3, a4, a5, a6, a7, a8, a9, t, rfl⟩ :=
    exists_cons10 rows (by simpa using h10)
  cases logx <;> cases logy <;>
    simp [scatterplot, gridOuter, gridInner, scatterBody, hx,
      DataFrame.iloc, DataFrame.index, scatterExpected, delaxes,
      List.range_succ, default_panel_eq]

/-- Master run lemma for `choropleth`: with at least 13 columns the call
succeeds and produces exactly the figure `choroExpected`. -/
theorem choropleth_run (gdf : GeoDataFrame) (cmap : String)
    (h13 : 13 ≤ gdf.cols.length) :
    choropleth gdf cmap = .ok (choroExpected gdf cmap) := by
  have hlen : 10 ≤ (choroCols gdf).length := by
    simp only [choroCols, List.length_take, GeoDataFrame.columns,
      List.length_map]
    omega
  obtain ⟨c0, c1, c2, c3, c4, c5, c6, c7, c8, c9, t, hcs⟩ :=
    exists_cons10 (choroCols gdf) hlen
  simp [choropleth, gridOuter, gridInner, choroBody, hcs, choroExpected,
    delaxes, List.range_succ, default_panel_eq]

/-- Master error lemma for `scatterplot`: when the population label
resolves but fewer than ten rows exist, the call fails with an
out-of-range error at position `df.rows.length`. -/
theorem scatterplot_short (df : DataFrame) (logx logy : Bool) (x : List Int)
    (hx : df.loc "total_population" = some x) (hlt : df.rows.length < 10) :
    scatterplot df logx logy = .error (.indexError df.rows.length) := by
  obtain ⟨rows⟩ := df
  rcases rows with _ | ⟨a0, _ | ⟨a1, _ | ⟨a2, _ | ⟨a3, _ | ⟨a4, _ | ⟨a5,
    _ | ⟨a6, _ | ⟨a7, _ | ⟨a8, _ | ⟨a9, rows⟩⟩⟩⟩⟩⟩⟩⟩⟩⟩ <;>
    first
      | (exfalso; simp at hlt; omega)
      | simp [scatterplot, gridOuter, gridInner, scatterBody, hx,
          DataFrame.iloc, DataFrame.index, default_panel_eq]

/-- Master error lemma for `choropleth`: with fewer than 13 columns the
call fails with an out-of-range error at the first metric position past
the available leading columns. -/
theorem choropleth_short (gdf : GeoDataFrame) (cmap : String)
    (hlt : gdf.cols.length < 13) :
    choropleth gdf cmap = .error (.indexError (gdf.cols.length - 3)) := by
  obtain ⟨cols, crs⟩ := gdf
  rcases cols with _ | ⟨a0, _ | ⟨a1, _ | ⟨a2, _ | ⟨a3, _ | ⟨a4, _ | ⟨a5,
    _ | ⟨a6, _ | ⟨a7, _ | ⟨a8, _ | ⟨a9, _ | ⟨a10, _ | ⟨a11, _ |
    ⟨a12, cols⟩⟩⟩⟩⟩⟩⟩⟩⟩⟩⟩⟩⟩ <;>
    first
      | (exfalso; simp at hlt; omega)
      | simp [choropleth, gridOuter, gridInner, choroBody, choroCols,
          GeoDataFrame.columns, default_panel_eq]

/-- A label present in the index makes `loc` succeed. -/
theorem loc_isSome_of_mem (df : DataFrame) (label : String)
    (h : label ∈ df.index) : ∃ x, df.loc label = some x := by
  obtain ⟨r, hr, hlab⟩ := List.mem_map.mp h
  have hs : (df.rows.find? fun r => r.1 == label).isSome :=
    List.find?_isSome.mpr ⟨r, hr, by simp [hlab]⟩
  obtain ⟨p, hp⟩ := Option.isSome_iff_exists.mp hs
  exact ⟨p.2, by simp [DataFrame.loc, hp]⟩

/-- A label absent from the index makes `loc` fail. -/
theorem loc_eq_none_of_not_mem (df : DataFrame) (label : String)
    (h : label ∉ df.index) : df.loc label = none := by
  have : df.rows.find? (fun r => r.1 == label) = none := by
    rw [List.find?_eq_none]
    intro r hr
    simp only [beq_iff_eq]
    intro heq
    exact h (List.mem_map.mpr ⟨r, hr, heq⟩)
  simp [DataFrame.loc, this]

/-- Entry `k` of a figure built by mapping over `List.range`. -/
theorem getD_range_map {α : Type} [Inhabited α] (f : Nat → α) (n k : Nat)
    (h : k < n) : ((List.range n).map f).getD k default = f k := by
  simp [List.getD_eq_getElem?_getD, List.getElem?_map, List.getElem?_range h]

/-- C1 counterexample: the code does not skip the population row. On
`exDf11`, whose first row is keyed total_population, the first panel
plots the population values on the y-axis (against themselves). -/
theorem scatterplot_population_row_plotted_cex :
    ∃ fig, scatterplot exDf11 false false = Except.ok fig ∧
      exDf11.loc "total_population" = some [5, 7] ∧
      exDf11.rows[0]? = some ("total_population", [5, 7]) ∧
      (fig.getD 0 default).scatterData = some ([5, 7], [5, 7]) :=
  ⟨_, rfl, rfl, rfl, rfl⟩

/-- C1 (amended): scatterplot draws one panel per row position `k < 10`,
in order, whatever the row label is; panel `k` plots the population row
on the x-axis against row `k` of the table on the y-axis, without
skipping the total_population row. -/
theorem scatterplot_first10_rows (df : DataFrame) (logx logy : Bool)
    (x : List Int) (hx : df.loc "total_population" = some x)
    (h10 : 10 ≤ df.rows.length) :
    ∃ fig, scatterplot df logx logy = Except.ok fig ∧
      ∀ k r, k < 10 → df.rows[k]? = some r →
        (fig.getD k default).scatterData = some (x, r.2) := by
  refine ⟨_, scatterplot_run df logx logy x hx h10, ?_⟩
  intro k r hk hr
  simp only [scatterExpected]
  rw [getD_range_map _ 12 k (by omega)]
  simp [hk, hr]

/-- C1 witness: the amended theorem applied to `exDf11`. -/
theorem scatterplot_first10_rows_witness :
    exDf11.loc "total_population" = some [5, 7] ∧
    10 ≤ exDf11.rows.length ∧
    ∃ fig, scatterplot exDf11 false false = Except.ok fig ∧
      ∀ k r, k < 10 → exDf11.rows[k]? = some r →
        (fig.getD k default).scatterData = some ([5, 7], r.2) :=
  ⟨rfl, by decide,
    scatterplot_first10_rows exDf11 false false [5, 7] rfl (by decide)⟩

/-- C2 counterexample: `exDf10` has fewer than 11 rows, yet `scatterplot`
completes without raising. -/
theorem scatterplot_ten_rows_completes_cex :
    exDf10.rows.length < 11 ∧
    ∃ fig, scatterplot exDf10 false false = Except.ok fig :=
  ⟨by decide, _, rfl⟩

/-- C2 (amended): for a table with fewer than 10 rows whose index contains
the population label, scatterplot fails with an out-of-range error (at
row position `df.rows.length`); with 10 rows it already completes. -/
theorem scatterplot_under10_out_of_range (df : DataFrame)
    (logx logy : Bool) (hmem : "total_population" ∈ df.index)
    (hlt : df.rows.length < 10) :
    scatterplot df logx logy = Except.error (.indexError df.rows.length) := by
  obtain ⟨x, hx⟩ := loc_isSome_of_mem df _ hmem
  exact scatterplot_short df logx logy x hx hlt

/-- C2 witness: the amended theorem applied to the 5-row frame. -/
theorem scatterplot_under10_out_of_range_witness :
    ("total_population" ∈ exDf5.index) ∧ exDf5.rows.length < 10 ∧
    scatterplot exDf5 false false
      = Except.error (.indexError exDf5.rows.length) :=
  ⟨by decide, by decide,
    scatterplot_under10_out_of_range exDf5 false false (by decide) (by decide)⟩

/-- C3 counterexample: on `exDf11` the metric "bike_Parking" gets the
final title "Bike parking" (Python capitalize lowercases the rest of the
name), not "Bike Parking" as the claimed rule produces. -/
theorem title_formatting_cex :
    ∃ fig, scatterplot exDf11 false false = Except.ok fig ∧
      exDf11.index[1]? = some "bike_Parking" ∧
      (fig.getD 1 default).title = some "Bike parking" ∧
      specTitle "bike_Parking" = "Bike Parking" ∧
      (fig.getD 1 default).title ≠ some (specTitle "bike_Parking") :=
  ⟨_, rfl, rfl, rfl, rfl, by decide⟩

/-- C3 (amended): the final title of every populated panel, in both
functions, is the metric name with its first character uppercased, every
other character lowercased, and then underscores replaced by spaces. -/
theorem title_formatting :
    (∀ (df : DataFrame) (logx logy : Bool) (x : List Int),
      df.loc "total_population" = some x → 10 ≤ df.rows.length →
      ∃ fig, scatterplot df logx logy = Except.ok fig ∧
        ∀ k r, k < 10 → df.rows[k]? = some r →
          (fig.getD k default).title
            = some (pyReplace1 (pyCapitalize r.1) '_' ' ')) ∧
    (∀ (gdf : GeoDataFrame) (cmap : String), 13 ≤ gdf.cols.length →
      ∃ fig, choropleth gdf cmap = Except.ok fig ∧
        ∀ k c, k < 10 → (choroCols gdf)[k]? = some c →
          (fig.getD k default).title
            = some (pyReplace1 (pyCapitalize c) '_' ' ')) := by
  constructor
  · intro df logx logy x hx h10
    refine ⟨_, scatterplot_run df logx logy x hx h10, ?_⟩
    intro k r hk hr
    simp only [scatterExpected]
    rw [getD_range_map _ 12 k (by omega)]
    simp [hk, hr, pyTitle]
  · intro gdf cmap h13
    refine ⟨_, choropleth_run gdf cmap h13, ?_⟩
    intro k c hk hc
    simp only [choroExpected]
    rw [getD_range_map _ 12 k (by omega)]
    simp [hk, hc, pyTitle]

/-- C3 witness: the amended theorem applied to `exDf11` and `exGdf13`. -/
theorem title_formatting_witness :
    exDf11.loc "total_population" = some [5, 7] ∧
    10 ≤ exDf11.rows.length ∧ 13 ≤ exGdf13.cols.length ∧
    (∃ fig, scatterplot exDf11 false false = Except.ok fig ∧
      ∀ k r, k < 10 → exDf11.rows[k]? = some r →
        (fig.getD k default).title
          = some (pyReplace1 (pyCapitalize r.1) '_' ' ')) ∧
    (∃ fig, choropleth exGdf13 "viridis" = Except.ok fig ∧
      ∀ k c, k < 10 → (choroCols exGdf13)[k]? = some c →
        (fig.getD k default).title
          = some (pyReplace1 (pyCapitalize c) '_' ' ')) :=
  ⟨rfl, by decide, by decide,
    title_formatting.1 exDf11 false false [5, 7] rfl (by decide),
    title_formatting.2 exGdf13 "viridis" (by decide)⟩

/-- C4: a table with exactly 11 rows, exactly one of them keyed
total_population, gives a completed figure with exactly 10 scatter panels
and exactly 2 deleted panels. -/
theorem scatterplot_eleven_rows (df : DataFrame) (logx logy : Bool)
    (h11 : df.rows.length = 11)
    (hone : df.index.count "total_population" = 1) :
    ∃ fig, scatterplot df logx logy = Except.ok fig ∧
      countScatterPanels fig = 10 ∧ countDeletedPanels fig = 2 := by
  have hmem : "total_population" ∈ df.index := List.count_pos_iff.mp (by omega)
  obtain ⟨x, hx⟩ := loc_isSome_of_mem df _ hmem
  refine ⟨_, scatterplot_run df logx logy x hx (by omega), ?_, ?_⟩ <;>
  · obtain ⟨rows⟩ := df
    obtain ⟨a0, a1, a2, a3, a4, a5, a6, a7, a8, a9, t, rfl⟩ :=
      exists_cons10 rows (by simp at h11 ⊢; omega)
    simp [scatterExpected, countScatterPanels, countDeletedPanels,
      List.range_succ, default_panel_eq]

/-- C4 witness: the theorem applied to `exDf11`. -/
theorem scatterplot_eleven_rows_witness :
    exDf11.rows.length = 11 ∧ exDf11.index.count "total_population" = 1 ∧
    ∃ fig, scatterplot exDf11 true true = Except.ok fig ∧
      countScatterPanels fig = 10 ∧ countDeletedPanels fig = 2 :=
  ⟨by decide, by decide,
    scatterplot_eleven_rows exDf11 true true (by decide) (by decide)⟩

/-- C5: a geospatial table with exactly 13 columns gives a completed
figure with exactly 10 map panels and exactly 2 deleted panels. -/
theorem choropleth_thirteen_columns (gdf : GeoDataFrame) (cmap : String)
    (h13 : gdf.cols.length = 13) :
    ∃ fig, choropleth gdf cmap = Except.ok fig ∧
      countMapPanels fig = 10 ∧ countDeletedPanels fig = 2 := by
  refine ⟨_, choropleth_run gdf cmap (by omega), ?_, ?_⟩ <;>
  · obtain ⟨c0, c1, c2, c3, c4, c5, c6, c7, c8, c9, t, hcs⟩ :=
      exists_cons10 (choroCols gdf)
        (by simp [choroCols, GeoDataFrame.columns]; omega)
    simp [choroExpected, hcs, countMapPanels, countDeletedPanels,
      List.range_succ, default_panel_eq]

/-- C5 witness: the theorem applied to `exGdf13`. -/
theorem choropleth_thirteen_columns_witness :
    exGdf13.cols.length = 13 ∧
    ∃ fig, choropleth exGdf13 "viridis" = Except.ok fig ∧
      countMapPanels fig = 10 ∧ countDeletedPanels fig = 2 :=
  ⟨by decide, choropleth_thirteen_columns exGdf13 "viridis" (by decide)⟩

/-- C6: a geospatial table with fewer than 13 columns makes `choropleth`
fail with an out-of-range error, at the first metric position past the
available leading columns. -/
theorem choropleth_too_few_columns (gdf : GeoDataFrame) (cmap : String)
    (hlt : gdf.cols.length < 13) :
    choropleth gdf cmap
      = Except.error (.indexError (gdf.cols.length - 3)) :=
  choropleth_short gdf cmap hlt

/-- C6 witness: the theorem applied to the 5-column frame. -/
theorem choropleth_too_few_columns_witness :
    exGdf5.cols.length < 13 ∧
    choropleth exGdf5 "viridis"
      = Except.error (.indexError (exGdf5.cols.length - 3)) :=
  ⟨by decide, choropleth_too_few_columns exGdf5 "viridis" (by decide)⟩

/-- C10: when no row is keyed total_population, `scatterplot` fails with
a key lookup error, however many rows the table has. -/
theorem scatterplot_missing_population_key (df : DataFrame)
    (logx logy : Bool) (h : "total_population" ∉ df.index) :
    scatterplot df logx logy
      = Except.error (.keyError "total_population") := by
  have hl := loc_eq_none_of_not_mem df _ h
  simp [scatterplot, gridOuter, gridInner, scatterBody, hl]

/-- C10 witness: the theorem applied to a 12-row frame without the
population label. -/
theorem scatterplot_missing_population_key_witness :
    ("total_population" ∉ exDfNoPop.index) ∧ 11 ≤ exDfNoPop.rows.length ∧
    scatterplot exDfNoPop false false
      = Except.error (.keyError "total_population") :=
  ⟨by decide, by decide,
    scatterplot_missing_population_key exDfNoPop false false (by decide)⟩

theorem clearScales_default : Panel.clearScales default = default := rfl

/-- Entry lookup commutes with clearing the scale flags of a figure. -/
theorem getD_map_clearScales (fig : Figure) (idx : Nat) :
    (fig.map Panel.clearScales).getD idx default
      = Panel.clearScales (fig.getD idx default) := by
  rw [List.getD_eq_getElem?_getD, List.getD_eq_getElem?_getD,
    List.getElem?_map]
  cases h : fig[idx]? <;> simp [clearScales_default]

/-- The scatter body is insensitive, up to the scale flags, to the scale
flags it is called with and to the scale flags of the panel it updates. -/
theorem scatterBody_clearScales (df : DataFrame) (lx ly lx2 ly2 : Bool)
    (k : Nat) (p q : Panel) (h : p.clearScales = q.clearScales) :
    (scatterBody df lx ly k p).map Panel.clearScales
      = (scatterBody df lx2 ly2 k q).map Panel.clearScales := by
  unfold scatterBody
  cases hl : df.loc "total_population" <;> simp
  cases hi : df.iloc k <;> simp
  cases hn : df.index[k]? <;> simp
  simp only [Panel.clearScales, Panel.mk.injEq] at h
  cases lx <;> cases ly <;> cases lx2 <;> cases ly2 <;>
    simp_all [Panel.clearScales, Except.map]

/-- The inner loop maps figures equal up to scale flags to results equal
up to scale flags, for bodies related in the same way. -/
theorem gridInner_clearScales (b b2 : Nat → Panel → Except PlotError Panel)
    (hb : ∀ k p q, p.clearScales = q.clearScales →
      (b k p).map Panel.clearScales = (b2 k q).map Panel.clearScales)
    (ncols i : Nat) (js : List Nat) :
    ∀ (k : Nat) (fig fig2 : Figure),
      fig.map Panel.clearScales = fig2.map Panel.clearScales →
      (gridInner b ncols i js k fig).map
          (fun r => (r.1.map Panel.clearScales, r.2))
        = (gridInner b2 ncols i js k fig2).map
          (fun r => (r.1.map Panel.clearScales, r.2)) := by
  induction js with
  | nil =>
    intro k fig fig2 hfig
    simp [gridInner, hfig, Except.map]
  | cons j rest ih =>
    intro k fig fig2 hfig
    have hget : (fig.getD (i * ncols + j) default).clearScales
        = (fig2.getD (i * ncols + j) default).clearScales := by
      rw [← getD_map_clearScales, ← getD_map_clearScales, hfig]
    have hbody := hb k _ _ hget
    simp only [gridInner]
    cases hb1 : b k (fig.getD (i * ncols + j) default) with
    | error e =>
      cases hb2 : b2 k (fig2.getD (i * ncols + j) default) with
      | error e2 =>
        rw [hb1, hb2] at hbody
        simp [Except.map] at hbody
        simp [hbody, Except.map]
      | ok p2 =>
        rw [hb1, hb2] at hbody
        simp [Except.map] at hbody
    | ok p =>
      cases hb2 : b2 k (fig2.getD (i * ncols + j) default) with
      | error e2 =>
        rw [hb1, hb2] at hbody
        simp [Except.map] at hbody
      | ok p2 =>
        have hpq : p.clearScales = p2.clearScales := by
          rw [hb1, hb2] at hbody
          simpa [Except.map] using hbody
        have hset : (fig.set (i * ncols + j) p).map Panel.clearScales
            = (fig2.set (i * ncols + j) p2).map Panel.clearScales := by
          rw [List.map_set, List.map_set, hfig, hpq]
        cases hkk : (k + 1 == 10) <;> simp only [hkk]
        · simpa using ih (k + 1) _ _ hset
        · simp [hset, Except.map]

/-- The outer loop enjoys the same congruence. -/
theorem gridOuter_clearScales (b b2 : Nat → Panel → Except PlotError Panel)
    (hb : ∀ k p q, p.clearScales = q.clearScales →
      (b k p).map Panel.clearScales = (b2 k q).map Panel.clearScales)
    (ncols : Nat) (js : List Nat) (is : List Nat) :
    ∀ (k : Nat) (fig fig2 : Figure),
      fig.map Panel.clearScales = fig2.map Panel.clearScales →
      (gridOuter b ncols js is k fig).map
          (fun r => (r.1.map Panel.clearScales, r.2))
        = (gridOuter b2 ncols js is k fig2).map
          (fun r => (r.1.map Panel.clearScales, r.2)) := by
  induction is with
  | nil =>
    intro k fig fig2 hfig
    simp [gridOuter, hfig, Except.map]
  | cons i rest ih =>
    intro k fig fig2 hfig
    have hinner := gridInner_clearScales b b2 hb ncols i js k fig fig2 hfig
    simp only [gridOuter]
    cases h1 : gridInner b ncols i js k fig with
    | error e =>
      cases h2 : gridInner b2 ncols i js k fig2 with
      | error e2 =>
        rw [h1, h2] at hinner
        simp [Except.map] at hinner
        simp [hinner, Except.map]
      | ok r2 =>
        rw [h1, h2] at hinner
        simp [Except.map] at hinner
    | ok r =>
      cases h2 : gridInner b2 ncols i js k fig2 with
      | error e2 =>
        rw [h1, h2] at hinner
        simp [Except.map] at hinner
      | ok r2 =>
        rw [h1, h2] at hinner
        obtain ⟨r, kk⟩ := r
        obtain ⟨r2, kk2⟩ := r2
        simp [Except.map] at hinner
        exact hinner.2 ▸ ih kk r r2 hinner.1

/-- Clearing the scale flags commutes with deleting a cell. -/
theorem delaxes_map_clearScales (fig : Figure) (idx : Nat) :
    (delaxes fig idx).map Panel.clearScales
      = delaxes (fig.map Panel.clearScales) idx := by
  unfold delaxes
  rw [List.map_set, getD_map_clearScales]
  cases fig.getD idx default
  rfl

/-- C7: two scatterplot runs that differ only in the log flags agree on
everything except the axis scales: the figures (data values, titles,
labels, deletions) are equal once the scale flags are cleared, and a
failing run fails identically. -/
theorem scatterplot_log_flags_scale_only (df : DataFrame)
    (lx ly lx2 ly2 : Bool) :
    (scatterplot df lx ly).map (List.map Panel.clearScales)
      = (scatterplot df lx2 ly2).map (List.map Panel.clearScales) := by
  have h := gridOuter_clearScales (scatterBody df lx ly)
    (scatterBody df lx2 ly2) (scatterBody_clearScales df lx ly lx2 ly2)
    4 [0, 1, 2, 3] [0, 1, 2] 0 (List.replicate 12 default)
    (List.replicate 12 default) rfl
  unfold scatterplot
  cases h1 : gridOuter (scatterBody df lx ly) 4 [0, 1, 2, 3] [0, 1, 2] 0
      (List.replicate 12 default) with
  | error e =>
    cases h2 : gridOuter (scatterBody df lx2 ly2) 4 [0, 1, 2, 3] [0, 1, 2] 0
        (List.replicate 12 default) with
    | error e2 =>
      rw [h1, h2] at h
      simp [Except.map] at h
      simp [h, Except.map]
    | ok r2 =>
      rw [h1, h2] at h
      simp [Except.map] at h
  | ok r =>
    cases h2 : gridOuter (scatterBody df lx2 ly2) 4 [0, 1, 2, 3] [0, 1, 2] 0
        (List.replicate 12 default) with
    | error e2 =>
      rw [h1, h2] at h
      simp [Except.map] at h
    | ok r2 =>
      rw [h1, h2] at h
      obtain ⟨fig, kk⟩ := r
      obtain ⟨fig2, kk2⟩ := r2
      simp [Except.map] at h ⊢
      simp only [delaxes_map_clearScales]
      rw [h.1]

/-- Panels set by the inner loop satisfy any property the body
guarantees of every panel it returns. -/
theorem gridInner_preserves {Q : Panel → Prop}
    (b : Nat → Panel → Except PlotError Panel)
    (hb : ∀ k p p2, b k p = .ok p2 → Q p2) (ncols i : Nat) (js : List Nat) :
    ∀ (k : Nat) (fig fig2 : Figure) (k2 : Nat), (∀ p ∈ fig, Q p) →
      gridInner b ncols i js k fig = .ok (fig2, k2) → ∀ p ∈ fig2, Q p := by
  induction js with
  | nil =>
    intro k fig fig2 k2 hfig h
    simp [gridInner] at h
    exact h.1 ▸ hfig
  | cons j rest ih =>
    intro k fig fig2 k2 hfig h
    simp only [gridInner] at h
    cases hb1 : b k (fig.getD (i * ncols + j) default) with
    | error e =>
      rw [hb1] at h
      simp at h
    | ok p =>
      rw [hb1] at h
      have hset : ∀ q ∈ fig.set (i * ncols + j) p, Q q := by
        intro q hq
        rcases List.mem_or_eq_of_mem_set hq with hq2 | rfl
        · exact hfig _ hq2
        · exact hb _ _ _ hb1
      cases hkk : (k + 1 == 10) <;> rw [hkk] at h <;> simp at h
      · exact ih (k + 1) _ _ _ hset h
      · exact h.1 ▸ hset
  
/-- Panels set by the outer loop satisfy any property the body
guarantees of every panel it returns. -/
theorem gridOuter_preserves {Q : Panel → Prop}
    (b : Nat → Panel → Except PlotError Panel)
    (hb : ∀ k p p2, b k p = .ok p2 → Q p2) (ncols : Nat) (js : List Nat)
    (is : List Nat) :
    ∀ (k : Nat) (fig fig2 : Figure) (k2 : Nat), (∀ p ∈ fig, Q p) →
      gridOuter b ncols js is k fig = .ok (fig2, k2) → ∀ p ∈ fig2, Q p := by
  induction is with
  | nil =>
    intro k fig fig2 k2 hfig h
    simp [gridOuter] at h
    exact h.1 ▸ hfig
  | cons i rest ih =>
    intro k fig fig2 k2 hfig h
    simp only [gridOuter] at h
    cases h1 : gridInner b ncols i js k fig with
    | error e =>
      rw [h1] at h
      simp at h
    | ok r =>
      rw [h1] at h
      obtain ⟨f, kk⟩ := r
      exact ih kk _ _ _ (gridInner_preserves b hb ncols i js k fig f kk hfig h1) h

/-- Deleting a cell preserves any panel property that is stable under
marking a panel deleted and holds of the default panel. -/
theorem delaxes_preserves {Q : Panel → Prop}
    (hdel : ∀ p, Q p → Q { p with deleted := true }) (hdef : Q default)
    (fig : Figure) (idx : Nat) (hfig : ∀ p ∈ fig, Q p) :
    ∀ p ∈ delaxes fig idx, Q p := by
  intro p hp
  unfold delaxes at hp
  rcases List.mem_or_eq_of_mem_set hp with h | rfl
  · exact hfig _ h
  · apply hdel
    rw [List.getD_eq_getElem?_getD]
    cases hg : fig[idx]? with
    | none => exact hdef
    | some q => exact hfig _ (List.getElem?_mem hg)

/-- C8: every map panel a completed `choropleth` run draws shows the
frame reprojected to EPSG 3857, classified with the Fisher-Jenks scheme,
colored with the chosen color map, and has its axis hidden. -/
theorem choropleth_panel_properties (gdf : GeoDataFrame) (cmap : String)
    (fig : Figure) (h : choropleth gdf cmap = Except.ok fig) :
    ∀ p ∈ fig, ∀ mp, p.mapPlot = some mp →
      mp.frame = gdf.to_crs 3857 ∧ mp.scheme = "fisher_jenks" ∧
      mp.cmap = cmap ∧ p.axisOn = false := by
  have hb : ∀ k p p2, choroBody gdf cmap (choroCols gdf) k p = .ok p2 →
      ∀ mp, p2.mapPlot = some mp →
        mp.frame = gdf.to_crs 3857 ∧ mp.scheme = "fisher_jenks" ∧
        mp.cmap = cmap ∧ p2.axisOn = false := by
    intro k p p2 hbody
    unfold choroBody at hbody
    cases hc : (choroCols gdf)[k]? with
    | none =>
      rw [hc] at hbody
      simp at hbody
    | some c =>
      rw [hc] at hbody
      simp at hbody
      subst hbody
      intro mp hmp
      simp at hmp
      subst hmp
      simp
  unfold choropleth at h
  cases hg : gridOuter (choroBody gdf cmap (choroCols gdf)) 3 [0, 1, 2]
      [0, 1, 2, 3] 0 (List.replicate 12 default) with
  | error e =>
    rw [hg] at h
    simp at h
  | ok r =>
    rw [hg] at h
    obtain ⟨f, kk⟩ := r
    simp at h
    subst h
    have hinit : ∀ p ∈ List.replicate 12 (default : Panel),
        ∀ mp, p.mapPlot = some mp →
          mp.frame = gdf.to_crs 3857 ∧ mp.scheme = "fisher_jenks" ∧
          mp.cmap = cmap ∧ p.axisOn = false := by
      intro p hp
      rw [List.eq_of_mem_replicate hp]
      intro mp hmp
      simp [default_panel_eq] at hmp
    have hloop := gridOuter_preserves (Q := fun p => ∀ mp, p.mapPlot = some mp →
        mp.frame = gdf.to_crs 3857 ∧ mp.scheme = "fisher_jenks" ∧
        mp.cmap = cmap ∧ p.axisOn = false)
      _ hb 3 [0, 1, 2] [0, 1, 2, 3] 0 _ f kk hinit hg
    refine delaxes_preserves ?_ ?_ _ _ (delaxes_preserves ?_ ?_ _ _ hloop) <;>
      first
        | (intro p hp mp hmp; simpa using hp mp (by simpa using hmp))
        | (intro mp hmp; simp [default_panel_eq] at hmp)

/-- C8 witness: the theorem applied to `exGdf13` with the magma map. -/
theorem choropleth_panel_properties_witness :
    ∃ fig, choropleth exGdf13 "magma" = Except.ok fig ∧
      ∀ p ∈ fig, ∀ mp, p.mapPlot = some mp →
        mp.frame = exGdf13.to_crs 3857 ∧ mp.scheme = "fisher_jenks" ∧
        mp.cmap = "magma" ∧ p.axisOn = false :=
  ⟨_, rfl, choropleth_panel_properties exGdf13 "magma" _ rfl⟩

/-- The scatter body hands back the frame it was given. -/
theorem scatterBodySt_state (logx logy : Bool) (k : Nat) (p : Panel)
    (df : DataFrame) (r : Panel) (df2 : DataFrame)
    (h : scatterBodySt logx logy k p df = .ok (r, df2)) : df2 = df := by
  unfold scatterBodySt at h
  cases hl : df.loc "total_population" <;> rw [hl] at h <;> simp at h
  cases hi : df.iloc k <;> rw [hi] at h <;> simp at h
  cases hn : df.index[k]? <;> rw [hn] at h <;> simp at h
  exact h.2.symm

/-- The choropleth body hands back the frame it was given; only the
fresh reprojected copy enters the panel. -/
theorem choroBodySt_state (cmap : String) (columns : List String) (k : Nat)
    (p : Panel) (gdf : GeoDataFrame) (r : Panel) (gdf2 : GeoDataFrame)
    (h : choroBodySt cmap columns k p gdf = .ok (r, gdf2)) : gdf2 = gdf := by
  unfold choroBodySt at h
  cases hc : columns[k]? <;> rw [hc] at h <;> simp at h
  exact h.2.symm

/-- The inner loop returns its state unchanged whenever the body does. -/
theorem gridInnerSt_state {S : Type}
    (b : Nat → Panel → S → Except PlotError (Panel × S))
    (hb : ∀ k p s r s2, b k p s = .ok (r, s2) → s2 = s)
    (ncols i : Nat) (js : List Nat) :
    ∀ (k : Nat) (fig : Figure) (s : S),
      (gridInnerSt b ncols i js k fig s).2 = s := by
  induction js with
  | nil =>
    intro k fig s
    simp [gridInnerSt]
  | cons j rest ih =>
    intro k fig s
    simp only [gridInnerSt]
    cases hb1 : b k (fig.getD (i * ncols + j) default) s with
    | error e => simp
    | ok r =>
      obtain ⟨p, s2⟩ := r
      have hs := hb _ _ _ _ _ hb1
      subst hs
      cases hkk : (k + 1 == 10) <;> simp [hkk, ih]

/-- The outer loop returns its state unchanged whenever the body does. -/
theorem gridOuterSt_state {S : Type}
    (b : Nat → Panel → S → Except PlotError (Panel × S))
    (hb : ∀ k p s r s2, b k p s = .ok (r, s2) → s2 = s)
    (ncols : Nat) (js : List Nat) (is : List Nat) :
    ∀ (k : Nat) (fig : Figure) (s : S),
      (gridOuterSt b ncols js is k fig s).2 = s := by
  induction is with
  | nil =>
    intro k fig s
    simp [gridOuterSt]
  | cons i rest ih =>
    intro k fig s
    simp only [gridOuterSt]
    have hinner := gridInnerSt_state b hb ncols i js k fig s
    cases h1 : gridInnerSt b ncols i js k fig s with
    | mk r s2 =>
      rw [h1] at hinner
      simp at hinner
      subst hinner
      cases r with
      | error e => simp
      | ok r =>
        obtain ⟨f, kk⟩ := r
        simp [ih]

/-- C9: neither function changes the table it is handed: the state
threaded runs return the scatterplot frame and the choropleth frame
unchanged, the reprojection acting only on the fresh copy it returns. -/
theorem inputs_unchanged (df : DataFrame) (logx logy : Bool)
    (gdf : GeoDataFrame) (cmap : String) :
    (scatterplotSt df logx logy).2 = df ∧
    (choroplethSt gdf cmap).2 = gdf := by
  constructor
  · have h := gridOuterSt_state (scatterBodySt logx logy)
      (fun k p s r s2 hh => scatterBodySt_state logx logy k p s r s2 hh)
      4 [0, 1, 2, 3] [0, 1, 2] 0 (List.replicate 12 default) df
    unfold scatterplotSt
    cases h1 : gridOuterSt (scatterBodySt logx logy) 4 [0, 1, 2, 3] [0, 1, 2] 0
        (List.replicate 12 default) df with
    | mk r s =>
      rw [h1] at h
      simp at h
      subst h
      cases r with
      | error e => simp
      | ok r =>
        obtain ⟨f, kk⟩ := r
        simp
  · have h := gridOuterSt_state (choroBodySt cmap (choroCols gdf))
      (fun k p s r s2 hh => choroBodySt_state cmap (choroCols gdf) k p s r s2 hh)
      3 [0, 1, 2] [0, 1, 2, 3] 0 (List.replicate 12 default) gdf
    unfold choroplethSt
    cases h1 : gridOuterSt (choroBodySt cmap (choroCols gdf)) 3 [0, 1, 2]
        [0, 1, 2, 3] 0 (List.replicate 12 default) gdf with
    | mk r s =>
      rw [h1] at h
      simp at h
      subst h
      cases r with
      | error e => simp
      | ok r =>
        obtain ⟨f, kk⟩ := r
        simp
